import Mathlib

/-!
Verification of the job execution and metrics-labeling engine of canary-ng.

The development shallowly embeds the Go sources under `src/internal/job.go`,
`src/internal/config.go` and `src/discover/consul.go`:

* pure string/list manipulation (name prefixing, host determination,
  per-host job expansion, hostname caching, consul host extraction) becomes
  Lean functions over the same data;
* the counter and histogram side effects of the measurement loop become
  explicit state passing over an `MState` record holding the three counters,
  the ordered list of duration observations (abstracted to the phase label
  attached to each observation, since wall-clock durations are not modelled)
  and the ordered trace of probe operations invoked;
* external collaborators (the store drivers, the DNS resolver `net.ParseIP`
  / `net.LookupIP`, the consul catalog fetch, the discovery backend) are
  parameters of the functions that call them, mirroring the spec's view of
  them as external capabilities.

Go maps (labels, node metadata) are modelled as association lists.
-/

namespace CanaryNg

/-- Constants from `src/internal/job.go` lines 16-30. -/
def JOB_INTERVAL : Int := 1

def JOB_NAME_SEPARATOR : String := "/"

def JOB_TYPE_CLICKHOUSE : String := "clickhouse"

def JOB_TYPE_MONGODB : String := "mongodb"

def JOB_TYPE_MYSQL : String := "mysql"

def JOB_TYPE_POSTGRESQL : String := "postgresql"

def JOB_TYPE_VALKEY : String := "valkey"

def QUERY_TYPE_CONNECT : String := "connect"

def QUERY_TYPE_READ : String := "read"

def QUERY_TYPE_WRITE : String := "write"

def QUERY_TYPE_READ_WRITE : String := "read_write"

def QUERY_TYPE_DISCONNECT : String := "disconnect"

def DISCOVER_TYPE_CONSUL : String := "consul"

/-- Embeds `QueryLabelsConfig` (`src/internal/config.go` lines 26-32). -/
structure QueryLabelsConfig where
  Name : String := ""
  ConnectValue : String := ""
  ReadValue : String := ""
  WriteValue : String := ""
  DisconnectValue : String := ""
deriving Repr, DecidableEq

/-- Embeds `DiscoveryConfig` (`src/internal/config.go` lines 71-81).
`NodeMeta` is a Go map, modelled as an association list; the Go field `Type`
is rendered `Type'` because `Type` is reserved in Lean. -/
structure DiscoveryConfig where
  Type' : String := ""
  Addresses : List String := []
  Datacenter : String := ""
  Scheme : String := ""
  SkipVerify : Bool := false
  Token : String := ""
  NodeMeta : List (String × String) := []
  ReturnMeta : String := ""
  ReturnMetas : List String := []
deriving Repr, DecidableEq

/-- Embeds `JobConfig` (`src/internal/config.go` lines 34-69), restricted to
the fields the job-expansion engine itself reads; the remaining fields are
connection options passed through verbatim to the external store drivers and
play no role in the embedded code paths. -/
structure JobConfig where
  Name : String := ""
  Labels : List (String × String) := []
  Type' : String := ""
  Interval : Int := 0
  DSN : String := ""
  Scheme : String := ""
  Host : String := ""
  Hosts : List String := []
  CacheHostnames : Bool := false
  HostsDiscovery : DiscoveryConfig := {}
  JobPerHost : Bool := false
  PrefixNameWithHost : Bool := false
  NameSeparator : String := ""
  QueryType : String := ""
deriving Repr, DecidableEq

/-- Embeds Go `strings.Join`. -/
def strJoin (sep : String) : List String → String
  | [] => ""
  | [x] => x
  | x :: xs => x ++ sep ++ strJoin sep xs

/-- Embeds `AddHostPrefix` (`src/internal/job.go` lines 95-101): when
`PrefixNameWithHost` is set, the name becomes
`strings.Join([]string{strings.Join(config.Hosts, separator), config.Name}, separator)`
with `separator := JOB_NAME_SEPARATOR`; the `NameSeparator` config field is
never consulted by this function. -/
def addHostPrefixFn (config : JobConfig) : String :=
  if !config.PrefixNameWithHost then config.Name
  else strJoin JOB_NAME_SEPARATOR [strJoin JOB_NAME_SEPARATOR config.Hosts, config.Name]

/-!  Measurement-loop state (`src/internal/job.go` lines 297-407).

`failures`, `queries` and `jobs` are the three monotonic counters of the
metrics sink for this job's label set.  `observations` records, in order, the
query-phase label value attached to each histogram duration observation.
`calls` records, in order, which probe operations the loop invoked. -/
structure MState where
  failures : Nat := 0
  queries : Nat := 0
  jobs : Nat := 0
  observations : List String := []
  calls : List String := []
deriving Repr, DecidableEq

/-- Result of each probe operation for one cycle; `true` means the Go call
returned a nil error.  The driver is an external collaborator, so its
behaviour is a parameter of the embedded `Measure`. -/
structure DriverBehavior where
  connect : Bool := true
  read : Bool := true
  write : Bool := true
  disconnect : Bool := true
deriving Repr, DecidableEq

/-- Embeds `IncrQueries` (`src/internal/job.go` lines 368-370). -/
def IncrQueries (s : MState) : MState :=
  { s with queries := s.queries + 1 }

/-- Embeds `IncrJobs` (`src/internal/job.go` lines 372-374). -/
def IncrJobs (s : MState) : MState :=
  { s with jobs := s.jobs + 1 }

/-- Embeds `IncrFailures` (`src/internal/job.go` lines 362-366): add 1 to the
failures counter, then call `IncrQueries`, then `IncrJobs`. -/
def IncrFailures (s : MState) : MState :=
  IncrJobs (IncrQueries { s with failures := s.failures + 1 })

/-- Embeds `ObserveDuration` (`src/internal/job.go` lines 376-396): map the
query type to the configured query-label value and record one histogram
observation carrying it; an unrecognized query type records nothing. -/
def ObserveDuration (ql : QueryLabelsConfig) (queryType : String) (s : MState) : MState :=
  if queryType = QUERY_TYPE_CONNECT then
    { s with observations := s.observations ++ [ql.ConnectValue] }
  else if queryType = QUERY_TYPE_READ then
    { s with observations := s.observations ++ [ql.ReadValue] }
  else if queryType = QUERY_TYPE_WRITE then
    { s with observations := s.observations ++ [ql.WriteValue] }
  else if queryType = QUERY_TYPE_DISCONNECT then
    { s with observations := s.observations ++ [ql.DisconnectValue] }
  else s

/-- Embeds `EndMeasurement` (`src/internal/job.go` lines 402-407): observe the
elapsed duration under the phase label, then increment the query counter. -/
def EndMeasurement (ql : QueryLabelsConfig) (queryType : String) (s : MState) : MState :=
  IncrQueries (ObserveDuration ql queryType s)

/-- Records that the loop invoked one probe operation. -/
def callDriver (op : String) (s : MState) : MState :=
  { s with calls := s.calls ++ [op] }

/-- Embeds the tail of `Measure` (`src/internal/job.go` lines 351-359), reached
only when connect and the dispatched query phase(s) all succeeded: invoke
`Disconnect`; on failure increment the failure counter and return, on success
observe the disconnect duration and increment the job counter. -/
def finishCycle (ql : QueryLabelsConfig) (d : DriverBehavior) (s : MState) : MState :=
  let s := callDriver "disconnect" s
  if !d.disconnect then IncrFailures s
  else IncrJobs (EndMeasurement ql QUERY_TYPE_DISCONNECT s)

/-- Embeds `Measure` (`src/internal/job.go` lines 297-360).
`StartMeasurement` only records a wall-clock timestamp and has no effect on
the modelled state.  The `switch` on the query type becomes an if-chain over
the same string constants; its default branch increments the failure counter
and then invokes `Disconnect` with the returned error ignored. -/
def Measure (ql : QueryLabelsConfig) (d : DriverBehavior) (queryType : String)
    (s : MState) : MState :=
  let s := callDriver "connect" s
  if !d.connect then IncrFailures s
  else
    let s := EndMeasurement ql QUERY_TYPE_CONNECT s
    if queryType = QUERY_TYPE_READ then
      let s := callDriver "read" s
      if !d.read then IncrFailures s
      else finishCycle ql d (EndMeasurement ql QUERY_TYPE_READ s)
    else if queryType = QUERY_TYPE_WRITE then
      let s := callDriver "write" s
      if !d.write then IncrFailures s
      else finishCycle ql d (EndMeasurement ql QUERY_TYPE_WRITE s)
    else if queryType = QUERY_TYPE_READ_WRITE then
      let s := callDriver "read" s
      if !d.read then IncrFailures s
      else
        let s := EndMeasurement ql QUERY_TYPE_READ s
        let s := callDriver "write" s
        if !d.write then IncrFailures s
        else finishCycle ql d (EndMeasurement ql QUERY_TYPE_WRITE s)
    else
      callDriver "disconnect" (IncrFailures s)

/-!  Job construction (`src/internal/job.go` lines 104-267). -/

/-- The assembled job: the (possibly rewritten) config it was built from and
the metric label set.  The store driver held by the Go `Job` is an external
collaborator constructed from `config` and carries no further state relevant
to the embedded code paths. -/
structure Job where
  config : JobConfig
  labels : List (String × String)
deriving Repr, DecidableEq

/-- Embeds the Go map assignment `l[k] = v` on an association-list model:
any previous binding of `k` is replaced. -/
def setLabel (l : List (String × String)) (k v : String) : List (String × String) :=
  l.filter (fun p => p.1 ≠ k) ++ [(k, v)]

/-- Embeds the loop body of the hostname-caching block
(`src/internal/job.go` lines 121-134): iterate over the hosts; a host that
`net.ParseIP` rejects (modelled by the external predicate `isIP` returning
`false`) is resolved via `net.LookupIP` (the external `lookupIP`) and all its
resolved addresses are appended; the first resolution error aborts.  A host
that parses as a literal IP address falls through the `if` with nothing
appended. -/
def resolveHosts (isIP : String → Bool) (lookupIP : String → Except String (List String)) :
    List String → Except String (List String)
  | [] => .ok []
  | host :: rest =>
    if isIP host then resolveHosts isIP lookupIP rest
    else
      match lookupIP host with
      | .error e => .error e
      | .ok resolved =>
        match resolveHosts isIP lookupIP rest with
        | .error e => .error e
        | .ok tail => .ok (resolved ++ tail)

/-- Embeds the hostname-caching block of `NewJob`
(`src/internal/job.go` lines 117-137): nothing happens unless
`CacheHostnames` is set; the `mongodb+srv` scheme skips caching with the
hosts unchanged; otherwise `config.Hosts` is replaced by the rebuilt list. -/
def applyCacheHostnames (isIP : String → Bool)
    (lookupIP : String → Except String (List String)) (config : JobConfig) :
    Except String JobConfig :=
  if config.CacheHostnames then
    if config.Scheme = "mongodb+srv" then .ok config
    else
      match resolveHosts isIP lookupIP config.Hosts with
      | .error e => .error e
      | .ok hosts => .ok { config with Hosts := hosts }
  else .ok config

/-- Embeds the driver-construction `switch` of `NewJob`
(`src/internal/job.go` lines 141-253).  The five vendor constructors are
external collaborators, abstracted as `ctor` applied to the job type string;
the pre-checks the switch performs itself are kept: the MySQL case rejects a
host list with more than one entry, and an unrecognized type fails. -/
def newDriver (ctor : String → JobConfig → Except String Unit) (config : JobConfig) :
    Except String Unit :=
  if config.Type' = JOB_TYPE_CLICKHOUSE then ctor JOB_TYPE_CLICKHOUSE config
  else if config.Type' = JOB_TYPE_MONGODB then ctor JOB_TYPE_MONGODB config
  else if config.Type' = JOB_TYPE_MYSQL then
    if config.Hosts.length ≤ 1 then ctor JOB_TYPE_MYSQL config
    else .error ("multiple hosts detected for mysql: " ++ strJoin ", " config.Hosts)
  else if config.Type' = JOB_TYPE_POSTGRESQL then ctor JOB_TYPE_POSTGRESQL config
  else if config.Type' = JOB_TYPE_VALKEY then ctor JOB_TYPE_VALKEY config
  else .error ("unsupported job type " ++ config.Type')

/-- Embeds `NewJob` (`src/internal/job.go` lines 104-267): build the label
set (user labels plus the job-name label, failing when the job label name is
empty), apply hostname caching, construct the driver, default the interval to
`JOB_INTERVAL` when zero, and return the assembled `Job`. -/
def NewJob (isIP : String → Bool) (lookupIP : String → Except String (List String))
    (ctor : String → JobConfig → Except String Unit) (config : JobConfig)
    (jobLabelName : String) : Except String Job :=
  if jobLabelName = "" then .error "missing job label name"
  else
    let l := setLabel config.Labels jobLabelName config.Name
    match applyCacheHostnames isIP lookupIP config with
    | .error e => .error e
    | .ok config =>
      match newDriver ctor config with
      | .error e => .error e
      | .ok _ =>
        let config := if config.Interval = 0 then { config with Interval := JOB_INTERVAL }
                      else config
        .ok { config := config, labels := l }

/-- Embeds the host-set determination at the head of `NewJobs`
(`src/internal/job.go` lines 46-64).  The discovery backend
(`DiscoverHosts`, which dispatches to consul) is an external collaborator
passed as `discover`; its own error is propagated unchanged, zero discovered
hosts fail with the literal message of line 60, and a config naming no target
at all fails with the message of line 63.  When only a DSN is present the
host set stays empty. -/
def determineHosts (discover : DiscoveryConfig → Except String (List String))
    (config : JobConfig) : Except String (List String) :=
  if config.Host ≠ "" then .ok [config.Host]
  else if config.Hosts.length > 0 then .ok config.Hosts
  else if config.HostsDiscovery.Type' ≠ "" then
    match discover config.HostsDiscovery with
    | .error e => .error e
    | .ok hosts =>
      if hosts.length = 0 then .error "0 host found by discovery"
      else .ok hosts
  else if config.DSN = "" then
    .error ("host, hosts, hosts_discovery or dsn required for job " ++ config.Name)
  else .ok []

/-- Embeds the `job_per_host` loop of `NewJobs` (`src/internal/job.go` lines
66-81): for each host, save the original name, set the host list to that
single host, derive the prefixed name, build one job (propagating its error),
then restore the name before the next host.  The threaded `config` mirrors
the Go local variable, and the final value is returned so its state after the
loop can be stated. -/
def newJobsLoop (isIP : String → Bool) (lookupIP : String → Except String (List String))
    (ctor : String → JobConfig → Except String Unit) (jobLabelName : String) :
    JobConfig → List String → Except String (List Job × JobConfig)
  | config, [] => .ok ([], config)
  | config, h :: rest =>
    let name := config.Name
    let config := { config with Hosts := [h] }
    let config := { config with Name := addHostPrefixFn config }
    match NewJob isIP lookupIP ctor config jobLabelName with
    | .error e => .error e
    | .ok j =>
      let config := { config with Name := name }
      match newJobsLoop isIP lookupIP ctor jobLabelName config rest with
      | .error e => .error e
      | .ok (jobs, config) => .ok (j :: jobs, config)

/-- Embeds `NewJobs` (`src/internal/job.go` lines 44-92): determine the host
set, then either fan out one job per host or build a single job over the
whole host set (after rewriting `Hosts` and deriving the prefixed name). -/
def NewJobs (isIP : String → Bool) (lookupIP : String → Except String (List String))
    (ctor : String → JobConfig → Except String Unit)
    (discover : DiscoveryConfig → Except String (List String))
    (config : JobConfig) (jobLabelName : String) : Except String (List Job) :=
  match determineHosts discover config with
  | .error e => .error e
  | .ok hosts =>
    if config.JobPerHost ∧ hosts.length > 0 then
      match newJobsLoop isIP lookupIP ctor jobLabelName config hosts with
      | .error e => .error e
      | .ok (jobs, _) => .ok jobs
    else
      let config := { config with Hosts := hosts }
      let config := { config with Name := addHostPrefixFn config }
      match NewJob isIP lookupIP ctor config jobLabelName with
      | .error e => .error e
      | .ok j => .ok [j]

/-- The per-host derived config built by each iteration of the
`job_per_host` loop: host list narrowed to the one host, name derived from
the original name. -/
def perHost (config : JobConfig) (h : String) : JobConfig :=
  { config with Hosts := [h],
                Name := addHostPrefixFn { config with Hosts := [h] } }

/-!  Consul host discovery (`src/discover/consul.go`). -/

/-- A consul catalog node as the discovery code reads it: an address and a
metadata map (association list). -/
structure Node where
  Address : String := ""
  Meta : List (String × String) := []
deriving Repr, DecidableEq

/-- Embeds the Go map lookup `node.Meta[returnMeta]` with its `ok` flag. -/
def metaLookup (m : List (String × String)) (k : String) : Option String :=
  match m.find? (fun p => p.1 = k) with
  | some p => some p.2
  | none => none

/-- Embeds `utils.In`: linear membership scan over a string slice. -/
def utilsIn : List String → String → Bool
  | [], _ => false
  | v :: rest, x => if v = x then true else utilsIn rest x

/-- Embeds the `returnMetas` derivation of `NewConsul`
(`src/discover/consul.go` lines 66-71): `ReturnMetas` wins when non-empty,
else a non-empty `ReturnMeta` becomes a one-field list, else no metadata
field is requested. -/
def consulReturnMetas (opts : DiscoveryConfig) : List String :=
  if opts.ReturnMetas.length > 0 then opts.ReturnMetas
  else if opts.ReturnMeta ≠ "" then [opts.ReturnMeta]
  else []

/-- Embeds the host-extraction loop of `Consul.Discover`
(`src/discover/consul.go` lines 99-109), applied to the node list the catalog
query returned (the catalog fetch itself is an external collaborator): with
metadata fields requested, each node contributes the values of those fields
that it defines, skipping values already collected; with none requested, each
node contributes its address unconditionally. -/
def consulDiscover (returnMetas : List String) (nodes : List Node) : List String :=
  nodes.foldl
    (fun hosts node =>
      if returnMetas.length > 0 then
        returnMetas.foldl
          (fun hosts rm =>
            match metaLookup node.Meta rm with
            | some meta => if utilsIn hosts meta then hosts else hosts ++ [meta]
            | none => hosts)
          hosts
      else hosts ++ [node.Address])
    []

/-- One step of first-seen deduplication: append the value unless it was
already collected. -/
def dedupStep (acc : List String) (x : String) : List String :=
  if utilsIn acc x then acc else acc ++ [x]

/-- Modelled from the spec words of §4.4 for comparison with the code: keep
the first occurrence of each value, dropping later duplicates. -/
def dedupFirst (l : List String) : List String :=
  l.foldl dedupStep []

/-- All requested metadata values in node-major, field-minor encounter
order, duplicates included. -/
def allMetaValues (returnMetas : List String) (nodes : List Node) : List String :=
  nodes.flatMap (fun n => returnMetas.filterMap (fun rm => metaLookup n.Meta rm))

/-!  Helper lemmas about the measurement state. -/

@[simp]
lemma IncrQueries_def (s : MState) : IncrQueries s = { s with queries := s.queries + 1 } := rfl

@[simp]
lemma IncrJobs_def (s : MState) : IncrJobs s = { s with jobs := s.jobs + 1 } := rfl

@[simp]
lemma IncrFailures_def (s : MState) :
    IncrFailures s =
      { s with failures := s.failures + 1, queries := s.queries + 1, jobs := s.jobs + 1 } := rfl

@[simp]
lemma callDriver_def (op : String) (s : MState) :
    callDriver op s = { s with calls := s.calls ++ [op] } := rfl

@[simp]
lemma ObserveDuration_connect (ql : QueryLabelsConfig) (s : MState) :
    ObserveDuration ql QUERY_TYPE_CONNECT s =
      { s with observations := s.observations ++ [ql.ConnectValue] } := by
  simp [ObserveDuration, QUERY_TYPE_CONNECT, QUERY_TYPE_READ, QUERY_TYPE_WRITE,
    QUERY_TYPE_DISCONNECT]

@[simp]
lemma ObserveDuration_read (ql : QueryLabelsConfig) (s : MState) :
    ObserveDuration ql QUERY_TYPE_READ s =
      { s with observations := s.observations ++ [ql.ReadValue] } := by
  simp [ObserveDuration, QUERY_TYPE_CONNECT, QUERY_TYPE_READ, QUERY_TYPE_WRITE,
    QUERY_TYPE_DISCONNECT]

@[simp]
lemma ObserveDuration_write (ql : QueryLabelsConfig) (s : MState) :
    ObserveDuration ql QUERY_TYPE_WRITE s =
      { s with observations := s.observations ++ [ql.WriteValue] } := by
  simp [ObserveDuration, QUERY_TYPE_CONNECT, QUERY_TYPE_READ, QUERY_TYPE_WRITE,
    QUERY_TYPE_DISCONNECT]

@[simp]
lemma ObserveDuration_disconnect (ql : QueryLabelsConfig) (s : MState) :
    ObserveDuration ql QUERY_TYPE_DISCONNECT s =
      { s with observations := s.observations ++ [ql.DisconnectValue] } := by
  simp [ObserveDuration, QUERY_TYPE_CONNECT, QUERY_TYPE_READ, QUERY_TYPE_WRITE,
    QUERY_TYPE_DISCONNECT]

lemma finishCycle_jobs (ql : QueryLabelsConfig) (d : DriverBehavior) (s : MState) :
    (finishCycle ql d s).jobs = s.jobs + 1 := by
  cases hd : d.disconnect <;> simp [finishCycle, EndMeasurement, hd]

/-!  The claim theorems. -/

/-- C2: every call to `IncrFailures` increments the failures counter by 1,
the queries counter by 1 and the jobs counter by 1, leaving the recorded
observations and probe-call trace untouched — a failure counts as one
completed job attempt with one completed query attempt, and this is the
single helper every failure path of `Measure` goes through. -/
theorem incrFailures_counts (s : MState) :
    (IncrFailures s).failures = s.failures + 1 ∧
    (IncrFailures s).queries = s.queries + 1 ∧
    (IncrFailures s).jobs = s.jobs + 1 ∧
    (IncrFailures s).observations = s.observations ∧
    (IncrFailures s).calls = s.calls := by
  simp [IncrFailures_def]

/-- C10: every single invocation of `Measure` increments the jobs counter by
exactly 1, for every query type and every combination of probe operation
outcomes: each failure path calls `IncrFailures` (jobs + 1) exactly once
before returning, and the full-success path calls `IncrJobs` exactly once. -/
theorem measure_jobs_exactly_one (ql : QueryLabelsConfig) (d : DriverBehavior)
    (queryType : String) (s : MState) :
    (Measure ql d queryType s).jobs = s.jobs + 1 := by
  unfold Measure
  split_ifs <;> simp [EndMeasurement, finishCycle_jobs]

/-- C3: a `read_write` cycle in which `Connect`, `Read`, `Write` and
`Disconnect` all succeed records exactly 4 duration observations, one per
phase in the order connect, read, write, disconnect (each carrying its
configured query-label value), increments the queries counter by 4, and
increments the jobs counter by exactly 1 (the failures counter stays put, so
no second jobs increment can come from the failure path). -/
theorem measure_read_write_success (ql : QueryLabelsConfig) (d : DriverBehavior)
    (s : MState) (hc : d.connect = true) (hr : d.read = true) (hw : d.write = true)
    (hd : d.disconnect = true) :
    (Measure ql d QUERY_TYPE_READ_WRITE s).observations =
        s.observations ++ [ql.ConnectValue, ql.ReadValue, ql.WriteValue, ql.DisconnectValue] ∧
    (Measure ql d QUERY_TYPE_READ_WRITE s).queries = s.queries + 4 ∧
    (Measure ql d QUERY_TYPE_READ_WRITE s).jobs = s.jobs + 1 ∧
    (Measure ql d QUERY_TYPE_READ_WRITE s).failures = s.failures := by
  have hrw : ¬ (QUERY_TYPE_READ_WRITE = QUERY_TYPE_READ) := by decide
  have hrw2 : ¬ (QUERY_TYPE_READ_WRITE = QUERY_TYPE_WRITE) := by decide
  simp [Measure, finishCycle, EndMeasurement, hc, hr, hw, hd, hrw, hrw2]

/-- C3 witness: the concrete all-success `read_write` cycle from the zero
state with the default query labels. -/
theorem measure_read_write_success_witness :
    (Measure { Name := "query", ConnectValue := "connect", ReadValue := "read",
               WriteValue := "write", DisconnectValue := "disconnect" }
        {} QUERY_TYPE_READ_WRITE {}).observations =
        ([] : List String) ++ ["connect", "read", "write", "disconnect"] ∧
    (Measure { Name := "query", ConnectValue := "connect", ReadValue := "read",
               WriteValue := "write", DisconnectValue := "disconnect" }
        {} QUERY_TYPE_READ_WRITE {}).queries = 0 + 4 ∧
    (Measure { Name := "query", ConnectValue := "connect", ReadValue := "read",
               WriteValue := "write", DisconnectValue := "disconnect" }
        {} QUERY_TYPE_READ_WRITE {}).jobs = 0 + 1 ∧
    (Measure { Name := "query", ConnectValue := "connect", ReadValue := "read",
               WriteValue := "write", DisconnectValue := "disconnect" }
        {} QUERY_TYPE_READ_WRITE {}).failures = 0 :=
  measure_read_write_success
    { Name := "query", ConnectValue := "connect", ReadValue := "read",
      WriteValue := "write", DisconnectValue := "disconnect" } {} {} rfl rfl rfl rfl

/-- C4: when `Connect` fails, `Measure` — for every query type — increments
the failure counter by 1, the queries counter by 1 and the jobs counter by 1,
records zero duration observations for the cycle, and invokes only the
`Connect` probe operation, so `Disconnect` is never invoked on this path. -/
theorem measure_connect_failure (ql : QueryLabelsConfig) (d : DriverBehavior)
    (queryType : String) (s : MState) (hc : d.connect = false) :
    (Measure ql d queryType s).failures = s.failures + 1 ∧
    (Measure ql d queryType s).queries = s.queries + 1 ∧
    (Measure ql d queryType s).jobs = s.jobs + 1 ∧
    (Measure ql d queryType s).observations = s.observations ∧
    (Measure ql d queryType s).calls = s.calls ++ ["connect"] := by
  simp [Measure, hc]

/-- C4 witness: a concrete failed-connect `read` cycle from the zero state. -/
theorem measure_connect_failure_witness :
    (Measure {} { connect := false } QUERY_TYPE_READ {}).failures = 0 + 1 ∧
    (Measure {} { connect := false } QUERY_TYPE_READ {}).queries = 0 + 1 ∧
    (Measure {} { connect := false } QUERY_TYPE_READ {}).jobs = 0 + 1 ∧
    (Measure {} { connect := false } QUERY_TYPE_READ {}).observations = ([] : List String) ∧
    (Measure {} { connect := false } QUERY_TYPE_READ {}).calls =
      ([] : List String) ++ ["connect"] :=
  measure_connect_failure {} { connect := false } QUERY_TYPE_READ {} rfl

/-- C8: when `Connect` succeeds but the query type is none of `read`, `write`
or `read_write`, `Measure` increments the failure counter (and with it the
queries and jobs counters once each — the queries counter ends at + 2 because
the successful connect phase already counted one query), invokes
`Disconnect` after the failure bookkeeping with its result ignored (the
outcome is the same for either value of the disconnect result), records no
duration observation beyond the connect phase, and aborts the cycle — unlike
the connect-failure path, where `Disconnect` is skipped. -/
theorem measure_unknown_query_type (ql : QueryLabelsConfig) (d : DriverBehavior)
    (queryType : String) (s : MState) (hc : d.connect = true)
    (h1 : queryType ≠ QUERY_TYPE_READ) (h2 : queryType ≠ QUERY_TYPE_WRITE)
    (h3 : queryType ≠ QUERY_TYPE_READ_WRITE) :
    (Measure ql d queryType s).failures = s.failures + 1 ∧
    (Measure ql d queryType s).queries = s.queries + 2 ∧
    (Measure ql d queryType s).jobs = s.jobs + 1 ∧
    (Measure ql d queryType s).observations = s.observations ++ [ql.ConnectValue] ∧
    (Measure ql d queryType s).calls = s.calls ++ ["connect", "disconnect"] ∧
    (∀ b : Bool, Measure ql { d with disconnect := b } queryType s =
        Measure ql d queryType s) := by
  refine ⟨?_, ?_, ?_, ?_, ?_, ?_⟩ <;>
    simp [Measure, EndMeasurement, hc, h1, h2, h3]

/-- C8 witness: a concrete cycle with the unrecognized query type `"bogus"`
from the zero state. -/
theorem measure_unknown_query_type_witness :
    (Measure {} {} "bogus" {}).failures = 0 + 1 ∧
    (Measure {} {} "bogus" {}).queries = 0 + 2 ∧
    (Measure {} {} "bogus" {}).jobs = 0 + 1 ∧
    (Measure {} {} "bogus" {}).observations =
      ([] : List String) ++ [({} : QueryLabelsConfig).ConnectValue] ∧
    (Measure {} {} "bogus" {}).calls = ([] : List String) ++ ["connect", "disconnect"] ∧
    (∀ b : Bool, Measure {} { ({} : DriverBehavior) with disconnect := b } "bogus" {} =
        Measure {} {} "bogus" {}) :=
  measure_unknown_query_type {} {} "bogus" {} rfl (by decide) (by decide) (by decide)

/-- C7: name derivation with `prefix_name_with_host=false` leaves the name
unchanged, and with `prefix_name_with_host=true` and the default separator
derives `join(hosts, sep) + sep + name` — hosts `["10.0.0.1"]` with name
`"ping"` give `"10.0.0.1/ping"` — but, contrary to the claim (and to the
documentation of the `name_separator` config field), the separator is NOT
configurable: `AddHostPrefix` never reads `NameSeparator`, so the config with
separator `"-"` still derives `"10.0.0.1/ping"`, and rewriting the field
never changes the result. -/
theorem addHostPrefix_separator_not_configurable :
    addHostPrefixFn { Name := "ping", Hosts := ["10.0.0.1"], PrefixNameWithHost := true,
                      NameSeparator := "-" } = "10.0.0.1/ping" ∧
    addHostPrefixFn { Name := "ping", Hosts := ["10.0.0.1"], PrefixNameWithHost := true,
                      NameSeparator := "-" } ≠ "10.0.0.1-ping" ∧
    (∀ (c : JobConfig) (sep : String),
        addHostPrefixFn { c with NameSeparator := sep } = addHostPrefixFn c) ∧
    (∀ c : JobConfig, c.PrefixNameWithHost = false → addHostPrefixFn c = c.Name) ∧
    addHostPrefixFn { Name := "ping", Hosts := ["10.0.0.1"],
                      PrefixNameWithHost := true } = "10.0.0.1/ping" := by
  refine ⟨by decide, by decide, fun c sep => rfl, ?_, by decide⟩
  intro c hc
  simp [addHostPrefixFn, hc]

/-- C6: hostname caching with a non-`"+srv"` scheme.  The parts of the claim
the code honours are shown on the spec's own example: `["db.internal"]`
resolving to `["10.0.0.5"]` yields hosts `["10.0.0.5"]`, a name resolving to
two addresses expands one-to-many, scheme `"mongodb+srv"` passes the hosts
through unresolved, and a resolution failure makes `NewJob` fail with the
resolution error.  But the claim's reading that only non-IP hosts are
*replaced* fails: a host that IS a literal IP address is silently dropped
from the rebuilt list (the loop appends nothing for it), so the host list
`["10.0.0.5"]` under caching becomes `[]` rather than staying
`["10.0.0.5"]`.  The external `net.ParseIP` / `net.LookupIP` are
instantiated here with a resolver that recognizes `10.0.0.5` and `10.0.0.6`
as literal IPs and resolves `db.internal` to `["10.0.0.5"]` and `multi.internal`
to `["10.0.0.5", "10.0.0.6"]`. -/
theorem cacheHostnames_drops_literal_ip :
    (applyCacheHostnames (fun h => h = "10.0.0.5" || h = "10.0.0.6")
        (fun h => if h = "db.internal" then .ok ["10.0.0.5"]
                  else if h = "multi.internal" then .ok ["10.0.0.5", "10.0.0.6"]
                  else .error "lookup failed")
        { Name := "j", Hosts := ["10.0.0.5"], CacheHostnames := true }).map
          (fun c => c.Hosts) = .ok [] ∧
    (applyCacheHostnames (fun h => h = "10.0.0.5" || h = "10.0.0.6")
        (fun h => if h = "db.internal" then .ok ["10.0.0.5"]
                  else if h = "multi.internal" then .ok ["10.0.0.5", "10.0.0.6"]
                  else .error "lookup failed")
        { Name := "j", Hosts := ["db.internal"], CacheHostnames := true }).map
          (fun c => c.Hosts) = .ok ["10.0.0.5"] ∧
    (applyCacheHostnames (fun h => h = "10.0.0.5" || h = "10.0.0.6")
        (fun h => if h = "db.internal" then .ok ["10.0.0.5"]
                  else if h = "multi.internal" then .ok ["10.0.0.5", "10.0.0.6"]
                  else .error "lookup failed")
        { Name := "j", Hosts := ["multi.internal"], CacheHostnames := true }).map
          (fun c => c.Hosts) = .ok ["10.0.0.5", "10.0.0.6"] ∧
    (applyCacheHostnames (fun h => h = "10.0.0.5" || h = "10.0.0.6")
        (fun h => if h = "db.internal" then .ok ["10.0.0.5"]
                  else if h = "multi.internal" then .ok ["10.0.0.5", "10.0.0.6"]
                  else .error "lookup failed")
        { Name := "j", Hosts := ["db.internal"], CacheHostnames := true,
          Scheme := "mongodb+srv" }).map (fun c => c.Hosts) = .ok ["db.internal"] ∧
    NewJob (fun h => h = "10.0.0.5" || h = "10.0.0.6")
        (fun h => if h = "db.internal" then .ok ["10.0.0.5"]
                  else if h = "multi.internal" then .ok ["10.0.0.5", "10.0.0.6"]
                  else .error "lookup failed")
        (fun _ _ => .ok ())
        { Name := "j", Type' := "postgresql", Hosts := ["nope.invalid"],
          CacheHostnames := true } "job_name" = .error "lookup failed" := by
  refine ⟨?_, ?_, ?_, ?_, ?_⟩ <;> rfl

/-- C5: host-set determination in `NewJobs` follows the precedence single
host, then host list, then discovery, then connection string: a set single
host yields that host alone; otherwise a non-empty host list is used as-is;
otherwise a configured discovery is invoked, with the backend's own error
propagated when discovery fails and the `"0 host found by discovery"` error
(hence zero jobs out of `NewJobs`) when it succeeds with zero hosts;
otherwise, when no DSN is present either, determination fails with the
missing-target error naming the job. -/
theorem determineHosts_precedence (isIP : String → Bool)
    (lookupIP : String → Except String (List String))
    (ctor : String → JobConfig → Except String Unit)
    (discover : DiscoveryConfig → Except String (List String)) (config : JobConfig)
    (jobLabelName : String) :
    (config.Host ≠ "" → determineHosts discover config = .ok [config.Host]) ∧
    (config.Host = "" → config.Hosts ≠ [] →
        determineHosts discover config = .ok config.Hosts) ∧
    (config.Host = "" → config.Hosts = [] → config.HostsDiscovery.Type' ≠ "" →
        (∀ e, discover config.HostsDiscovery = .error e →
            determineHosts discover config = .error e) ∧
        (discover config.HostsDiscovery = .ok [] →
            determineHosts discover config = .error "0 host found by discovery" ∧
            NewJobs isIP lookupIP ctor discover config jobLabelName =
              .error "0 host found by discovery")) ∧
    (config.Host = "" → config.Hosts = [] → config.HostsDiscovery.Type' = "" →
        config.DSN = "" →
        determineHosts discover config =
          .error ("host, hosts, hosts_discovery or dsn required for job " ++ config.Name)) := by
  refine ⟨?_, ?_, ?_, ?_⟩
  · intro h
    simp [determineHosts, h]
  · intro h h2
    simp [determineHosts, h, h2]
  · intro h h2 h3
    constructor
    · intro e he
      simp [determineHosts, h, h2, h3, he]
    · intro he
      have hd : determineHosts discover config = .error "0 host found by discovery" := by
        simp [determineHosts, h, h2, h3, he]
      exact ⟨hd, by simp [NewJobs, hd]⟩
  · intro h h2 h3 h4
    simp [determineHosts, h, h2, h3, h4]

/-- C5 witness: the four precedence branches at concrete configurations — a
single host wins, a host list is used as-is, discovery failure and empty
discovery propagate their errors (the latter also out of `NewJobs`), and a
target-less config without DSN yields the missing-target error. -/
theorem determineHosts_precedence_witness :
    determineHosts (fun _ => .error "unused") { Name := "a", Host := "h1" } = .ok ["h1"] ∧
    determineHosts (fun _ => .error "unused") { Name := "b", Hosts := ["x", "y"] } =
      .ok ["x", "y"] ∧
    determineHosts (fun _ => .error "boom")
      { Name := "c", HostsDiscovery := { Type' := "consul" } } = .error "boom" ∧
    determineHosts (fun _ => .ok [])
      { Name := "c", HostsDiscovery := { Type' := "consul" } } =
      .error "0 host found by discovery" ∧
    NewJobs (fun _ => false) (fun _ => .error "unused") (fun _ _ => .ok ())
      (fun _ => .ok []) { Name := "c", HostsDiscovery := { Type' := "consul" } }
      "job_name" = .error "0 host found by discovery" ∧
    determineHosts (fun _ => .error "unused") { Name := "d" } =
      .error ("host, hosts, hosts_discovery or dsn required for job " ++ "d") := by
  refine ⟨?_, ?_, ?_, ?_, ?_, ?_⟩
  · exact (determineHosts_precedence (fun _ => false) (fun _ => .error "unused")
      (fun _ _ => .ok ()) (fun _ => .error "unused") { Name := "a", Host := "h1" }
      "job_name").1 (by decide)
  · exact (determineHosts_precedence (fun _ => false) (fun _ => .error "unused")
      (fun _ _ => .ok ()) (fun _ => .error "unused") { Name := "b", Hosts := ["x", "y"] }
      "job_name").2.1 rfl (by decide)
  · exact ((determineHosts_precedence (fun _ => false) (fun _ => .error "unused")
      (fun _ _ => .ok ()) (fun _ => .error "boom")
      { Name := "c", HostsDiscovery := { Type' := "consul" } }
      "job_name").2.2.1 rfl rfl (by decide)).1 "boom" rfl
  · exact (((determineHosts_precedence (fun _ => false) (fun _ => .error "unused")
      (fun _ _ => .ok ()) (fun _ => .ok [])
      { Name := "c", HostsDiscovery := { Type' := "consul" } }
      "job_name").2.2.1 rfl rfl (by decide)).2 rfl).1
  · exact (((determineHosts_precedence (fun _ => false) (fun _ => .error "unused")
      (fun _ _ => .ok ()) (fun _ => .ok [])
      { Name := "c", HostsDiscovery := { Type' := "consul" } }
      "job_name").2.2.1 rfl rfl (by decide)).2 rfl).2
  · exact (determineHosts_precedence (fun _ => false) (fun _ => .error "unused")
      (fun _ _ => .ok ()) (fun _ => .error "unused") { Name := "d" }
      "job_name").2.2.2 rfl rfl rfl rfl

/-!  The `job_per_host` expansion loop. -/

/-- The per-host derived config ignores whatever the `Hosts` field held
before the iteration overwrote it. -/
lemma perHost_update_hosts (c : JobConfig) (hs : List String) (h : String) :
    perHost { c with Hosts := hs } h = perHost c h := rfl

/-- Specification of the `job_per_host` loop: when every per-host job
construction succeeds, the loop succeeds, produces one job per host in host
order (each job the one built from the per-host config), and the threaded
config ends with its original name. -/
lemma newJobsLoop_spec (isIP : String → Bool)
    (lookupIP : String → Except String (List String))
    (ctor : String → JobConfig → Except String Unit) (jobLabelName : String) :
    ∀ (hosts : List String) (c : JobConfig),
      (∀ h ∈ hosts, ∃ j, NewJob isIP lookupIP ctor (perHost c h) jobLabelName = .ok j) →
      ∃ js cf,
        newJobsLoop isIP lookupIP ctor jobLabelName c hosts = .ok (js, cf) ∧
        cf.Name = c.Name ∧
        js.length = hosts.length ∧
        ∀ i (hi : i < hosts.length) (hj : i < js.length),
          NewJob isIP lookupIP ctor (perHost c (hosts.get ⟨i, hi⟩)) jobLabelName =
            .ok (js.get ⟨i, hj⟩) := by
  intro hosts
  induction hosts with
  | nil =>
    intro c _
    exact ⟨[], c, rfl, rfl, rfl, fun i hi _ => absurd hi (by simp)⟩
  | cons h rest ih =>
    intro c H
    obtain ⟨j, hj⟩ := H h (List.mem_cons_self h rest)
    obtain ⟨js, cf, heq, hname, hlen, hidx⟩ :=
      ih { c with Hosts := [h] } (fun h2 hmem => H h2 (List.mem_cons_of_mem h hmem))
    have key : newJobsLoop isIP lookupIP ctor jobLabelName c (h :: rest) =
        match NewJob isIP lookupIP ctor (perHost c h) jobLabelName with
        | .error e => .error e
        | .ok j0 =>
          match newJobsLoop isIP lookupIP ctor jobLabelName { c with Hosts := [h] } rest with
          | .error e => .error e
          | .ok (js0, cf0) => .ok (j0 :: js0, cf0) := rfl
    refine ⟨j :: js, cf, ?_, hname, by simp [hlen], ?_⟩
    · rw [key, hj, heq]
    · intro i hi hj2
      cases i with
      | zero => exact hj
      | succ n =>
        have hi2 : n < rest.length := by simpa using hi
        have hj3 : n < js.length := by simpa using hj2
        exact hidx n hi2 hj3

/-- C1: for every JobSpec with `job_per_host=true` whose target resolution
yields at least one host and for which every per-host job construction
succeeds, `NewJobs` returns exactly one job per resolved host, in host
order; each job is the one built from the per-host derived config, whose
host list is the singleton of its one host and whose derived name is
computed from the ORIGINAL job name (so prefixes never compound across
hosts); and the threaded config holds its original name after the expansion
loop completes. -/
theorem newJobs_job_per_host (isIP : String → Bool)
    (lookupIP : String → Except String (List String))
    (ctor : String → JobConfig → Except String Unit)
    (discover : DiscoveryConfig → Except String (List String))
    (config : JobConfig) (jobLabelName : String) (hosts : List String)
    (hdet : determineHosts discover config = .ok hosts)
    (hjph : config.JobPerHost = true) (hne : hosts ≠ [])
    (hok : ∀ h ∈ hosts, ∃ j,
        NewJob isIP lookupIP ctor (perHost config h) jobLabelName = .ok j) :
    ∃ js cf,
      newJobsLoop isIP lookupIP ctor jobLabelName config hosts = .ok (js, cf) ∧
      NewJobs isIP lookupIP ctor discover config jobLabelName = .ok js ∧
      js.length = hosts.length ∧
      cf.Name = config.Name ∧
      (∀ i (hi : i < hosts.length),
        (perHost config (hosts.get ⟨i, hi⟩)).Hosts = [hosts.get ⟨i, hi⟩] ∧
        (perHost config (hosts.get ⟨i, hi⟩)).Name =
          addHostPrefixFn { config with Hosts := [hosts.get ⟨i, hi⟩] }) ∧
      ∀ i (hi : i < hosts.length) (hj : i < js.length),
        NewJob isIP lookupIP ctor (perHost config (hosts.get ⟨i, hi⟩)) jobLabelName =
          .ok (js.get ⟨i, hj⟩) := by
  obtain ⟨js, cf, heq, hname, hlen, hidx⟩ :=
    newJobsLoop_spec isIP lookupIP ctor jobLabelName hosts config hok
  have hpos : 0 < hosts.length := List.length_pos.mpr hne
  refine ⟨js, cf, heq, ?_, hlen, hname, fun i hi => ⟨rfl, rfl⟩, hidx⟩
  simp [NewJobs, hdet, hjph, hpos, heq]

/-- C1 witness: a concrete two-host `job_per_host` expansion with host
prefixing on; both per-host constructions succeed and the conclusion is
obtained from the expansion theorem. -/
theorem newJobs_job_per_host_witness :
    ∃ js cf,
      newJobsLoop (fun _ => false) (fun _ => .error "unused") (fun _ _ => .ok ())
          "job_name"
          { Name := "ping", Type' := "postgresql", Hosts := ["a", "b"],
            JobPerHost := true, PrefixNameWithHost := true } ["a", "b"] = .ok (js, cf) ∧
      NewJobs (fun _ => false) (fun _ => .error "unused") (fun _ _ => .ok ())
          (fun _ => .error "unused")
          { Name := "ping", Type' := "postgresql", Hosts := ["a", "b"],
            JobPerHost := true, PrefixNameWithHost := true } "job_name" = .ok js ∧
      js.length = (["a", "b"] : List String).length ∧
      cf.Name = "ping" ∧
      (∀ i (hi : i < (["a", "b"] : List String).length),
        (perHost { Name := "ping", Type' := "postgresql", Hosts := ["a", "b"],
                   JobPerHost := true, PrefixNameWithHost := true }
            ((["a", "b"] : List String).get ⟨i, hi⟩)).Hosts =
          [(["a", "b"] : List String).get ⟨i, hi⟩] ∧
        (perHost { Name := "ping", Type' := "postgresql", Hosts := ["a", "b"],
                   JobPerHost := true, PrefixNameWithHost := true }
            ((["a", "b"] : List String).get ⟨i, hi⟩)).Name =
          addHostPrefixFn { ({ Name := "ping", Type' := "postgresql", Hosts := ["a", "b"],
                               JobPerHost := true,
                               PrefixNameWithHost := true } : JobConfig) with
                            Hosts := [(["a", "b"] : List String).get ⟨i, hi⟩] }) ∧
      ∀ i (hi : i < (["a", "b"] : List String).length) (hj : i < js.length),
        NewJob (fun _ => false) (fun _ => .error "unused") (fun _ _ => .ok ())
            (perHost { Name := "ping", Type' := "postgresql", Hosts := ["a", "b"],
                       JobPerHost := true, PrefixNameWithHost := true }
              ((["a", "b"] : List String).get ⟨i, hi⟩)) "job_name" =
          .ok (js.get ⟨i, hj⟩) := by
  refine newJobs_job_per_host (fun _ => false) (fun _ => .error "unused")
    (fun _ _ => .ok ()) (fun _ => .error "unused")
    { Name := "ping", Type' := "postgresql", Hosts := ["a", "b"],
      JobPerHost := true, PrefixNameWithHost := true } "job_name" ["a", "b"]
    rfl rfl (by decide) ?_
  intro h hm
  rcases List.mem_cons.mp hm with h1 | h1
  · subst h1; exact ⟨_, rfl⟩
  · rcases List.mem_cons.mp h1 with h2 | h2
    · subst h2; exact ⟨_, rfl⟩
    · exact absurd h2 (by simp)

/-!  Consul discovery lemmas. -/

lemma utilsIn_iff (l : List String) (x : String) : utilsIn l x = true ↔ x ∈ l := by
  induction l with
  | nil => simp [utilsIn]
  | cons v rest ih =>
    by_cases h : v = x
    · simp [utilsIn, h]
    · have h2 : ¬ x = v := fun e => h e.symm
      simp [utilsIn, h, h2, ih]

lemma foldl_dedupStep_nodup : ∀ (l acc : List String), acc.Nodup →
    (l.foldl dedupStep acc).Nodup := by
  intro l
  induction l with
  | nil => intro acc h; simpa using h
  | cons x xs ih =>
    intro acc h
    simp only [List.foldl_cons]
    apply ih
    by_cases hx : utilsIn acc x
    · simpa [dedupStep, hx] using h
    · have hxm : x ∉ acc := fun hm => hx ((utilsIn_iff acc x).mpr hm)
      simp [dedupStep, hx, List.nodup_append, h, hxm]

lemma consul_inner (meta : List (String × String)) :
    ∀ (metas acc : List String),
      metas.foldl
        (fun hosts rm =>
          match metaLookup meta rm with
          | some v => if utilsIn hosts v then hosts else hosts ++ [v]
          | none => hosts)
        acc
      = (metas.filterMap (fun rm => metaLookup meta rm)).foldl dedupStep acc := by
  intro metas
  induction metas with
  | nil => intro acc; rfl
  | cons rm rest ih =>
    intro acc
    cases hl : metaLookup meta rm <;>
      simp [List.foldl_cons, List.filterMap_cons, hl, ih, dedupStep]

lemma consul_outer (metas : List String) (hm : metas.length > 0) :
    ∀ (nodes : List Node) (acc : List String),
      nodes.foldl
        (fun hosts node =>
          if metas.length > 0 then
            metas.foldl
              (fun hosts rm =>
                match metaLookup node.Meta rm with
                | some meta => if utilsIn hosts meta then hosts else hosts ++ [meta]
                | none => hosts)
              hosts
          else hosts ++ [node.Address])
        acc
      = (allMetaValues metas nodes).foldl dedupStep acc := by
  intro nodes
  induction nodes with
  | nil => intro acc; rfl
  | cons n ns ih =>
    intro acc
    rw [List.foldl_cons, if_pos hm, consul_inner n.Meta metas acc, ih]
    simp [allMetaValues, List.foldl_append]

lemma consul_addresses : ∀ (nodes : List Node) (acc : List String),
    nodes.foldl (fun hosts node => hosts ++ [node.Address]) acc =
      acc ++ nodes.map Node.Address := by
  intro nodes
  induction nodes with
  | nil => intro acc; simp
  | cons n ns ih => intro acc; simp [List.foldl_cons, ih]

/-- C9: for every consul discovery configuration that requests one or more
metadata field names (through `return_metas` or `return_meta`, as combined by
`NewConsul`), the host-extraction loop of `Discover` returns the union of the
distinct values of those fields across the discovered nodes — equal to
first-seen-order deduplication of all requested values in encounter order,
and containing no duplicates; when no metadata field is requested, the node
addresses are propagated verbatim, in node order. -/
theorem consulDiscover_spec (opts : DiscoveryConfig) (nodes : List Node) :
    (consulReturnMetas opts ≠ [] →
      consulDiscover (consulReturnMetas opts) nodes =
        dedupFirst (allMetaValues (consulReturnMetas opts) nodes) ∧
      (consulDiscover (consulReturnMetas opts) nodes).Nodup) ∧
    (consulReturnMetas opts = [] →
      consulDiscover (consulReturnMetas opts) nodes = nodes.map Node.Address) := by
  constructor
  · intro hne
    have hpos : (consulReturnMetas opts).length > 0 := List.length_pos.mpr hne
    have heq : consulDiscover (consulReturnMetas opts) nodes =
        (allMetaValues (consulReturnMetas opts) nodes).foldl dedupStep [] := by
      simp only [consulDiscover]
      exact consul_outer (consulReturnMetas opts) hpos nodes []
    refine ⟨heq, ?_⟩
    rw [heq]
    exact foldl_dedupStep_nodup _ [] (by simp)
  · intro hz
    simp only [consulDiscover, hz]
    simp only [List.length_nil, gt_iff_lt, lt_self_iff_false, if_false]
    simpa using consul_addresses nodes []

/-- C9 witness: three nodes where two share the metadata value `10.0.0.1`
yield the deduplicated union in first-seen order; a config requesting
nothing yields the addresses verbatim. -/
theorem consulDiscover_spec_witness :
    (consulReturnMetas { ReturnMetas := ["ip"] } ≠ [] ∧
      consulDiscover (consulReturnMetas { ReturnMetas := ["ip"] })
          [{ Address := "n1", Meta := [("ip", "10.0.0.1")] },
           { Address := "n2", Meta := [("ip", "10.0.0.1")] },
           { Address := "n3", Meta := [("ip", "10.0.0.2")] }] =
        dedupFirst (allMetaValues (consulReturnMetas { ReturnMetas := ["ip"] })
          [{ Address := "n1", Meta := [("ip", "10.0.0.1")] },
           { Address := "n2", Meta := [("ip", "10.0.0.1")] },
           { Address := "n3", Meta := [("ip", "10.0.0.2")] }]) ∧
      consulDiscover (consulReturnMetas { ReturnMetas := ["ip"] })
          [{ Address := "n1", Meta := [("ip", "10.0.0.1")] },
           { Address := "n2", Meta := [("ip", "10.0.0.1")] },
           { Address := "n3", Meta := [("ip", "10.0.0.2")] }] = ["10.0.0.1", "10.0.0.2"] ∧
      (consulDiscover (consulReturnMetas { ReturnMetas := ["ip"] })
          [{ Address := "n1", Meta := [("ip", "10.0.0.1")] },
           { Address := "n2", Meta := [("ip", "10.0.0.1")] },
           { Address := "n3", Meta := [("ip", "10.0.0.2")] }]).Nodup) ∧
    (consulReturnMetas {} = [] ∧
      consulDiscover (consulReturnMetas {})
          [{ Address := "n1" }, { Address := "n2" }] =
        ([{ Address := "n1" }, { Address := "n2" }] : List Node).map Node.Address) := by
  have h1 := (consulDiscover_spec { ReturnMetas := ["ip"] }
    [{ Address := "n1", Meta := [("ip", "10.0.0.1")] },
     { Address := "n2", Meta := [("ip", "10.0.0.1")] },
     { Address := "n3", Meta := [("ip", "10.0.0.2")] }]).1 (by decide)
  have h2 := (consulDiscover_spec {} [{ Address := "n1" }, { Address := "n2" }]).2 rfl
  exact ⟨⟨by decide, h1.1, rfl, h1.2⟩, ⟨rfl, h2⟩⟩

end CanaryNg
